import Mathlib

/-!
# Verification of the car-price-prediction feature builder

Shallow embedding of the input-to-feature-vector transformation of
`src/app.py`: static category vocabularies, derived-feature computation,
manual one-hot encoding and the reindex/column-alignment path (Variant A),
together with proofs of the spec's claims about them.

Numbers that Python treats as ints or floats are modelled as `Int`/`Rat`
(the only division in the code, `mileage / car_age`, is exact on the
inputs in scope). A pandas one-row DataFrame is modelled as an association
list from column name to value.
-/

namespace CarPrice

/-! ## Static vocabularies (src/app.py lines 39-50) -/

def brands : List String :=
  ["Audi", "BMW", "Chevrolet", "Ford", "Honda", "Hyundai", "Kia",
   "Mercedes", "Toyota", "Volkswagen"]

/-- `models_dict` from the source: per-brand model lists. Modelled as a
function; brands outside the dictionary map to `[]` (the source only ever
indexes it with members of `brands`). -/
def models_dict : String → List String
  | "Audi" => ["A3", "A4", "Q5"]
  | "BMW" => ["3 Series", "5 Series", "X5"]
  | "Chevrolet" => ["Equinox", "Impala", "Malibu"]
  | "Ford" => ["Explorer", "Fiesta", "Focus"]
  | "Honda" => ["Accord", "CR-V", "Civic"]
  | "Hyundai" => ["Elantra", "Sonata", "Tucson"]
  | "Kia" => ["Optima", "Rio", "Sportage"]
  | "Mercedes" => ["C-Class", "E-Class", "GLA"]
  | "Toyota" => ["Camry", "Corolla", "RAV4"]
  | "Volkswagen" => ["Golf", "Passat", "Tiguan"]
  | _ => []

def fuel_types : List String := ["Petrol", "Diesel", "Hybrid", "Electric"]

def transmissions : List String := ["Automatic", "Manual", "Semi-Automatic"]

def doors_options : List Int := [2, 3, 4, 5]

/-! ## The vehicle record collected from the sidebar widgets -/

structure VehicleRecord where
  brand : String
  model : String
  year : Int
  engineSize : Rat
  fuelType : String
  transmission : String
  mileage : Int
  doors : Int
  ownerCount : Int

/-! ## Derived features (src/app.py lines 90-92) -/

def car_age (currentYear year : Int) : Int := currentYear - year

def mileage_per_year (mileage carAge : Int) : Rat :=
  if 0 < carAge then (mileage : Rat) / (carAge : Rat) else 0

def brand_model (brand modelName : String) : String := brand ++ "_" ++ modelName

/-! ## One-hot encoding of the single input row (src/app.py lines 95-121)

`pd.get_dummies` on the one-row DataFrame keeps the numeric columns in
their original order and appends, for each categorical column in
`categorical_features` order, one indicator column named
`<column>_<value>` holding 1. -/

def numerical_features : List String :=
  ["Year", "Engine_Size", "Mileage", "Doors", "Owner_Count", "Car_Age",
   "Mileage_per_Year"]

def input_encoded (r : VehicleRecord) (currentYear : Int) : List (String × Rat) :=
  [("Year", (r.year : Rat)),
   ("Engine_Size", r.engineSize),
   ("Mileage", (r.mileage : Rat)),
   ("Doors", (r.doors : Rat)),
   ("Owner_Count", (r.ownerCount : Rat)),
   ("Car_Age", (car_age currentYear r.year : Rat)),
   ("Mileage_per_Year", mileage_per_year r.mileage (car_age currentYear r.year)),
   ("Brand_" ++ r.brand, 1),
   ("Model_" ++ r.model, 1),
   ("Fuel_Type_" ++ r.fuelType, 1),
   ("Transmission_" ++ r.transmission, 1),
   ("Brand_Model_" ++ brand_model r.brand r.model, 1)]

/-- The five indicator-column names produced by the one-hot encoding of a
single record (the dummy columns of `input_encoded`). -/
def oneHotCols (r : VehicleRecord) : List String :=
  ["Brand_" ++ r.brand, "Model_" ++ r.model, "Fuel_Type_" ++ r.fuelType,
   "Transmission_" ++ r.transmission, "Brand_Model_" ++ brand_model r.brand r.model]

/-! ## The expected column list (src/app.py lines 125-135) -/

def all_models : List String :=
  brands.flatMap (fun b => (models_dict b).map (fun m => b ++ "_" ++ m))

def expected_cols_raw : List String :=
  numerical_features ++
  brands.map (fun b => "Brand_" ++ b) ++
  brands.flatMap (fun b => (models_dict b).map (fun m => "Model_" ++ m)) ++
  fuel_types.map (fun f => "Fuel_Type_" ++ f) ++
  transmissions.map (fun t => "Transmission_" ++ t) ++
  all_models.map (fun bm => "Brand_Model_" ++ bm)

/-- `expected_cols = sorted(list(set(expected_cols)))`: duplicates removed,
then sorted lexicographically. -/
def expected_cols : List String :=
  List.insertionSort (· ≤ ·) expected_cols_raw.dedup

/-! ## Reindexing / column alignment (src/app.py line 139)

`reindex(columns=expected_cols, fill_value=0)` keeps exactly the columns of
`expected_cols` in that order, taking the encoded value when the column is
present and 0 otherwise; columns of the encoded row outside `expected_cols`
are dropped. -/

def final_input (r : VehicleRecord) (currentYear : Int) : List (String × Rat) :=
  expected_cols.map (fun c => (c, ((input_encoded r currentYear).lookup c).getD 0))

/-- Value of column `c` in a one-row frame (0 when absent). -/
def getVal (fv : List (String × Rat)) (c : String) : Rat :=
  ((fv.lookup c).getD 0)

/-- Model of the Streamlit `selectbox` widget used for the model options
(src/app.py line 65): the returned value is the requested/stored choice when
it is among the options, and otherwise the widget falls back to its default,
the option at index 0. In all cases the widget can only return a member of
`options` (when `options` is nonempty). -/
def selectbox (options : List String) (requested : String) : String :=
  if requested ∈ options then requested else options.headD ""

/-- Acceptance domain of the engine-size slider
`st.slider('Ukuran Mesin (L)', 1.0, 5.0, 2.0, 0.1)` (src/app.py line 71):
values from 1.0 to 5.0 in steps of 0.1, i.e. x ∈ [1, 5] with 10·x integral. -/
def engine_size_accepted (x : Rat) : Bool :=
  decide (1 ≤ x) && decide (x ≤ 5) && ((x * 10).den == 1)

/-- Acceptance domain of the mileage widget
`st.number_input('Jarak Tempuh (km)', min_value=0, max_value=300000, ...)`
(src/app.py line 79): integers from 0 to 300000. -/
def mileage_accepted (n : Int) : Bool :=
  decide (0 ≤ n) && decide (n ≤ 300000)

/-- Concrete record of the spec's scenario 1: a 2018 Toyota Camry. -/
def toyotaRecord : VehicleRecord :=
  { brand := "Toyota", model := "Camry", year := 2018, engineSize := 2,
    fuelType := "Petrol", transmission := "Automatic", mileage := 50000,
    doors := 4, ownerCount := 1 }

/-- Record carrying a fuel type outside the `fuel_types` vocabulary,
used to exercise the unknown-category path of the alignment code. -/
def ethanolRecord : VehicleRecord :=
  { brand := "Toyota", model := "Camry", year := 2018, engineSize := 2,
    fuelType := "Ethanol", transmission := "Automatic", mileage := 50000,
    doors := 4, ownerCount := 1 }

/-- Concrete record whose brand is BMW, for the column-alignment scenario. -/
def bmwRecord : VehicleRecord :=
  { brand := "BMW", model := "X5", year := 2020, engineSize := 3,
    fuelType := "Diesel", transmission := "Manual", mileage := 30000,
    doors := 4, ownerCount := 1 }

/-! ## Helper lemmas -/

theorem lookup_cons (k c : String) (v : Rat) (t : List (String × Rat)) :
    List.lookup c ((k, v) :: t) = if c = k then some v else List.lookup c t := by
  by_cases h : c = k
  · subst h; simp [List.lookup]
  · simp [List.lookup, h, beq_eq_false_iff_ne.mpr h]

theorem nodup_raw : expected_cols_raw.Nodup := by decide

theorem mem_expected_iff (c : String) : c ∈ expected_cols ↔ c ∈ expected_cols_raw := by
  rw [expected_cols, List.mem_insertionSort, List.mem_dedup]

theorem nodup_expected : expected_cols.Nodup :=
  ((List.perm_insertionSort _ _).nodup_iff).mpr (List.nodup_dedup _)

theorem length_expected : expected_cols.length = 84 := by
  rw [expected_cols, List.length_insertionSort, List.dedup_eq_self.mpr nodup_raw]
  decide

theorem sorted_expected : List.Sorted (· ≤ ·) expected_cols :=
  List.sorted_insertionSort _ _

theorem lookup_map_self {α : Type} (f : String → α) :
    ∀ (l : List String) (c : String), c ∈ l →
      (l.map (fun x => (x, f x))).lookup c = some (f c)
  | [], _, h => absurd h (List.not_mem_nil _)
  | x :: t, c, h => by
      by_cases hx : c = x
      · subst hx; simp [List.lookup]
      · have hmem : c ∈ t := by
          rcases List.mem_cons.mp h with h' | h'
          · exact absurd h' hx
          · exact h'
        simp [List.lookup, beq_eq_false_iff_ne.mpr hx, lookup_map_self f t c hmem]

theorem keys_final_input (r : VehicleRecord) (Y : Int) :
    (final_input r Y).map Prod.fst = expected_cols := by
  simp [final_input, Function.comp_def]

theorem getVal_final_input (r : VehicleRecord) (Y : Int) (c : String)
    (hc : c ∈ expected_cols) :
    getVal (final_input r Y) c = ((input_encoded r Y).lookup c).getD 0 := by
  rw [getVal, final_input, lookup_map_self _ _ _ hc]
  rfl

/-- Characterisation of the one-hot-encoded row of a single record: looking
up a column yields the numeric value for the seven numeric columns, 1 for
the five indicator columns of the record's own categorical values, and 0
(absent) for everything else. -/
theorem lookup_input_encoded (r : VehicleRecord) (Y : Int) (c : String) :
    ((input_encoded r Y).lookup c).getD 0 =
      if c = "Year" then (r.year : Rat)
      else if c = "Engine_Size" then r.engineSize
      else if c = "Mileage" then (r.mileage : Rat)
      else if c = "Doors" then (r.doors : Rat)
      else if c = "Owner_Count" then (r.ownerCount : Rat)
      else if c = "Car_Age" then (car_age Y r.year : Rat)
      else if c = "Mileage_per_Year" then mileage_per_year r.mileage (car_age Y r.year)
      else if c ∈ oneHotCols r then 1 else 0 := by
  rw [input_encoded, lookup_cons, lookup_cons, lookup_cons, lookup_cons, lookup_cons,
    lookup_cons, lookup_cons, lookup_cons, lookup_cons, lookup_cons, lookup_cons, lookup_cons]
  by_cases h1 : c = "Year"
  · subst h1; simp
  by_cases h2 : c = "Engine_Size"
  · subst h2; simp
  by_cases h3 : c = "Mileage"
  · subst h3; simp
  by_cases h4 : c = "Doors"
  · subst h4; simp
  by_cases h5 : c = "Owner_Count"
  · subst h5; simp
  by_cases h6 : c = "Car_Age"
  · subst h6; simp
  by_cases h7 : c = "Mileage_per_Year"
  · subst h7; simp
  by_cases h8 : c = "Brand_" ++ r.brand
  · subst h8; simp [oneHotCols, h1, h2, h3, h4, h5, h6, h7]
  by_cases h9 : c = "Model_" ++ r.model
  · subst h9; simp [oneHotCols, h1, h2, h3, h4, h5, h6, h7]
  by_cases h10 : c = "Fuel_Type_" ++ r.fuelType
  · subst h10; simp [oneHotCols, h1, h2, h3, h4, h5, h6, h7]
  by_cases h11 : c = "Transmission_" ++ r.transmission
  · subst h11; simp [oneHotCols, h1, h2, h3, h4, h5, h6, h7]
  by_cases h12 : c = "Brand_Model_" ++ brand_model r.brand r.model
  · subst h12; simp [oneHotCols, h1, h2, h3, h4, h5, h6, h7]
  simp [oneHotCols, h1, h2, h3, h4, h5, h6, h7, h8, h9, h10, h11, h12]

/-! ## Vocabulary facts, established by evaluation -/

theorem mem_raw_brand : ∀ b ∈ brands, ("Brand_" ++ b) ∈ expected_cols_raw := by decide

theorem mem_raw_model : ∀ b ∈ brands, ∀ m ∈ models_dict b,
    ("Model_" ++ m) ∈ expected_cols_raw := by decide

theorem mem_raw_fuel : ∀ f ∈ fuel_types, ("Fuel_Type_" ++ f) ∈ expected_cols_raw := by decide

theorem mem_raw_trans : ∀ t ∈ transmissions,
    ("Transmission_" ++ t) ∈ expected_cols_raw := by decide

theorem mem_raw_bm : ∀ b ∈ brands, ∀ m ∈ models_dict b,
    ("Brand_Model_" ++ brand_model b m) ∈ expected_cols_raw := by decide

theorem mem_raw_num : ∀ c ∈ numerical_features, c ∈ expected_cols_raw := by decide

theorem brandcol_not_num : ∀ b ∈ brands, ("Brand_" ++ b) ∉ numerical_features := by decide

theorem modelcol_not_num : ∀ b ∈ brands, ∀ m ∈ models_dict b,
    ("Model_" ++ m) ∉ numerical_features := by decide

theorem fuelcol_not_num : ∀ f ∈ fuel_types,
    ("Fuel_Type_" ++ f) ∉ numerical_features := by decide

theorem transcol_not_num : ∀ t ∈ transmissions,
    ("Transmission_" ++ t) ∉ numerical_features := by decide

theorem bmcol_not_num : ∀ b ∈ brands, ∀ m ∈ models_dict b,
    ("Brand_Model_" ++ brand_model b m) ∉ numerical_features := by decide

theorem onehot_nodup_vocab : ∀ b ∈ brands, ∀ m ∈ models_dict b, ∀ f ∈ fuel_types,
    ∀ t ∈ transmissions,
    (["Brand_" ++ b, "Model_" ++ m, "Fuel_Type_" ++ f, "Transmission_" ++ t,
      "Brand_Model_" ++ brand_model b m] : List String).Nodup := by decide

theorem onehot_disjoint_bmw : ∀ mBMW ∈ models_dict "BMW", ∀ f ∈ fuel_types,
    ∀ t ∈ transmissions, ∀ b ∈ brands, b ≠ "BMW" →
      ("Brand_" ++ b) ∉ (["Brand_" ++ "BMW", "Model_" ++ mBMW, "Fuel_Type_" ++ f,
        "Transmission_" ++ t, "Brand_Model_" ++ brand_model "BMW" mBMW] : List String) ∧
      ∀ m ∈ models_dict b, ("Model_" ++ m) ∉ (["Brand_" ++ "BMW", "Model_" ++ mBMW,
        "Fuel_Type_" ++ f, "Transmission_" ++ t,
        "Brand_Model_" ++ brand_model "BMW" mBMW] : List String) := by decide

/-! ## Value of an aligned column -/

/-- The seven numeric columns of the aligned vector carry the record's raw
and derived numeric values verbatim. -/
theorem getVal_numeric (r : VehicleRecord) (Y : Int) :
    getVal (final_input r Y) "Year" = (r.year : Rat) ∧
    getVal (final_input r Y) "Engine_Size" = r.engineSize ∧
    getVal (final_input r Y) "Mileage" = (r.mileage : Rat) ∧
    getVal (final_input r Y) "Doors" = (r.doors : Rat) ∧
    getVal (final_input r Y) "Owner_Count" = (r.ownerCount : Rat) ∧
    getVal (final_input r Y) "Car_Age" = ((car_age Y r.year : Int) : Rat) ∧
    getVal (final_input r Y) "Mileage_per_Year"
      = mileage_per_year r.mileage (car_age Y r.year) := by
  refine ⟨?_, ?_, ?_, ?_, ?_, ?_, ?_⟩ <;>
    · rw [getVal_final_input _ _ _ ((mem_expected_iff _).mpr (by decide)),
        lookup_input_encoded]
      simp

/-- Any non-numeric aligned column is an indicator: 1 when it names one of
the record's own categorical values, 0 otherwise. -/
theorem getVal_of_not_num (r : VehicleRecord) (Y : Int) (c : String)
    (hc : c ∈ expected_cols) (hn : c ∉ numerical_features) :
    getVal (final_input r Y) c = if c ∈ oneHotCols r then 1 else 0 := by
  rw [getVal_final_input _ _ _ hc, lookup_input_encoded]
  simp only [numerical_features, List.mem_cons, List.not_mem_nil, or_false, not_or] at hn
  obtain ⟨n1, n2, n3, n4, n5, n6, n7⟩ := hn
  simp [n1, n2, n3, n4, n5, n6, n7]

/-! ## Claims -/

/-- C1: Schema completeness of the Variant A alignment. For every record
whose categorical values are all in the vocabulary, the aligned vector's
key list is exactly `expected_cols` (whatever the categorical values are),
every indicator column for every vocabulary value is present in
`expected_cols`, the seven numeric columns carry the raw/derived numeric
values verbatim, and every indicator column not matching one of the
record's own values equals 0. -/
theorem C1_schema_completeness (r : VehicleRecord) (Y : Int)
    (hb : r.brand ∈ brands) (hm : r.model ∈ models_dict r.brand)
    (hf : r.fuelType ∈ fuel_types) (ht : r.transmission ∈ transmissions) :
    (final_input r Y).map Prod.fst = expected_cols ∧
    (∀ b ∈ brands, ("Brand_" ++ b) ∈ expected_cols) ∧
    (∀ b ∈ brands, ∀ m ∈ models_dict b, ("Model_" ++ m) ∈ expected_cols) ∧
    (∀ f ∈ fuel_types, ("Fuel_Type_" ++ f) ∈ expected_cols) ∧
    (∀ t ∈ transmissions, ("Transmission_" ++ t) ∈ expected_cols) ∧
    (∀ b ∈ brands, ∀ m ∈ models_dict b,
      ("Brand_Model_" ++ brand_model b m) ∈ expected_cols) ∧
    getVal (final_input r Y) "Year" = (r.year : Rat) ∧
    getVal (final_input r Y) "Engine_Size" = r.engineSize ∧
    getVal (final_input r Y) "Mileage" = (r.mileage : Rat) ∧
    getVal (final_input r Y) "Doors" = (r.doors : Rat) ∧
    getVal (final_input r Y) "Owner_Count" = (r.ownerCount : Rat) ∧
    getVal (final_input r Y) "Car_Age" = ((car_age Y r.year : Int) : Rat) ∧
    getVal (final_input r Y) "Mileage_per_Year"
      = mileage_per_year r.mileage (car_age Y r.year) ∧
    (∀ c ∈ expected_cols, c ∉ numerical_features → c ∉ oneHotCols r →
      getVal (final_input r Y) c = 0) := by
  obtain ⟨g1, g2, g3, g4, g5, g6, g7⟩ := getVal_numeric r Y
  exact ⟨keys_final_input r Y,
    fun b hb' => (mem_expected_iff _).mpr (mem_raw_brand b hb'),
    fun b hb' m hm' => (mem_expected_iff _).mpr (mem_raw_model b hb' m hm'),
    fun f hf' => (mem_expected_iff _).mpr (mem_raw_fuel f hf'),
    fun t ht' => (mem_expected_iff _).mpr (mem_raw_trans t ht'),
    fun b hb' m hm' => (mem_expected_iff _).mpr (mem_raw_bm b hb' m hm'),
    g1, g2, g3, g4, g5, g6, g7,
    fun c hc hn ho => by rw [getVal_of_not_num r Y c hc hn, if_neg ho]⟩

/-- Witness for C1 at the concrete 2018 Toyota Camry record. -/
theorem C1_witness :
    toyotaRecord.brand ∈ brands ∧
    toyotaRecord.model ∈ models_dict toyotaRecord.brand ∧
    toyotaRecord.fuelType ∈ fuel_types ∧
    toyotaRecord.transmission ∈ transmissions ∧
    (final_input toyotaRecord 2024).map Prod.fst = expected_cols := by
  have h := C1_schema_completeness toyotaRecord 2024 (by decide) (by decide)
    (by decide) (by decide)
  exact ⟨by decide, by decide, by decide, by decide, h.1⟩

/-- C2: the source's actual behaviour on a categorical value outside the
vocabulary (FuelType `Ethanol`). The alignment does NOT fail: the
`Fuel_Type_Ethanol` dummy column is silently dropped by the reindex, all
four vocabulary fuel-type indicator columns of the output are 0, and the
output still has the full expected key list — the silent all-zero encoding
the spec's §9 flags as the source's bug (the spec requires an
InvalidCategoryError instead). -/
theorem C2_silent_zero :
    ("Fuel_Type_Ethanol" ∉ (final_input ethanolRecord 2024).map Prod.fst) ∧
    (∀ f ∈ fuel_types, getVal (final_input ethanolRecord 2024) ("Fuel_Type_" ++ f) = 0) ∧
    (final_input ethanolRecord 2024).map Prod.fst = expected_cols := by
  refine ⟨?_, ?_, keys_final_input _ _⟩
  · rw [keys_final_input, mem_expected_iff]
    decide
  · intro f hf
    have hall : ∀ g ∈ fuel_types, ("Fuel_Type_" ++ g) ∉ oneHotCols ethanolRecord := by
      decide
    rw [getVal_of_not_num _ _ _ ((mem_expected_iff _).mpr (mem_raw_fuel f hf))
        (fuelcol_not_num f hf), if_neg (hall f hf)]

/-- C3: derived-feature computation. For every record with Year ≤
currentYear: CarAge = currentYear − Year (and is non-negative),
MileagePerYear = Mileage / CarAge when CarAge > 0 and 0 otherwise, and
BrandModel is Brand and Model joined by an underscore; concretely, for
Year=2018, Mileage=50000, currentYear=2024: CarAge=6,
MileagePerYear=25000/3 = 8333.33(3), BrandModel="Toyota_Camry". -/
theorem C3_derived_features (r : VehicleRecord) (Y : Int) (h : r.year ≤ Y) :
    car_age Y r.year = Y - r.year ∧
    0 ≤ car_age Y r.year ∧
    (0 < car_age Y r.year →
      mileage_per_year r.mileage (car_age Y r.year)
        = (r.mileage : Rat) / ((car_age Y r.year : Int) : Rat)) ∧
    (¬ 0 < car_age Y r.year → mileage_per_year r.mileage (car_age Y r.year) = 0) ∧
    brand_model r.brand r.model = r.brand ++ "_" ++ r.model ∧
    car_age 2024 2018 = 6 ∧
    mileage_per_year 50000 (car_age 2024 2018) = 25000 / 3 ∧
    brand_model "Toyota" "Camry" = "Toyota_Camry" := by
  refine ⟨rfl, ?_, ?_, ?_, rfl, by decide, ?_, by decide⟩
  · rw [car_age]; omega
  · intro hpos; rw [mileage_per_year, if_pos hpos]
  · intro hpos; rw [mileage_per_year, if_neg hpos]
  · rw [mileage_per_year, car_age]
    norm_num

/-- Witness for C3 at the concrete scenario-1 record and currentYear 2024. -/
theorem C3_witness :
    (2018 : Int) ≤ 2024 ∧
    (car_age 2024 2018 = 2024 - 2018 ∧
     0 ≤ car_age 2024 2018 ∧
     (0 < car_age 2024 2018 →
       mileage_per_year 50000 (car_age 2024 2018)
         = (50000 : Rat) / ((car_age 2024 2018 : Int) : Rat)) ∧
     (¬ 0 < car_age 2024 2018 → mileage_per_year 50000 (car_age 2024 2018) = 0) ∧
     brand_model "Toyota" "Camry" = "Toyota" ++ "_" ++ "Camry" ∧
     car_age 2024 2018 = 6 ∧
     mileage_per_year 50000 (car_age 2024 2018) = 25000 / 3 ∧
     brand_model "Toyota" "Camry" = "Toyota_Camry") :=
  ⟨by decide, C3_derived_features toyotaRecord 2024 (by decide)⟩

/-- C4: division guard. For every record whose Year equals currentYear,
CarAge is 0 and MileagePerYear is exactly 0 — a defined value produced by
the guard's else-branch, with no division performed. -/
theorem C4_division_guard (r : VehicleRecord) (Y : Int) (h : r.year = Y) :
    car_age Y r.year = 0 ∧ mileage_per_year r.mileage (car_age Y r.year) = 0 := by
  constructor
  · rw [car_age, h]; omega
  · rw [car_age, h, sub_self, mileage_per_year, if_neg (lt_irrefl 0)]

/-- Witness for C4 at a brand-new (Year = currentYear = 2024) record. -/
theorem C4_witness :
    (2024 : Int) = 2024 ∧
    car_age 2024 2024 = 0 ∧ mileage_per_year 50000 (car_age 2024 2024) = 0 :=
  ⟨rfl, C4_division_guard
    { brand := "Toyota", model := "Camry", year := 2024, engineSize := 2,
      fuelType := "Petrol", transmission := "Automatic", mileage := 50000,
      doors := 4, ownerCount := 1 } 2024 rfl⟩

/-- C5: column alignment for Brand = BMW. For every valid record whose
brand is BMW, the aligned vector has `Brand_BMW` = 1, every other
`Brand_*` indicator equal to 0, and every `Model_*` column for a model of
another brand present in the schema with value 0. -/
theorem C5_bmw_alignment (r : VehicleRecord) (Y : Int)
    (hb : r.brand = "BMW") (hm : r.model ∈ models_dict "BMW")
    (hf : r.fuelType ∈ fuel_types) (ht : r.transmission ∈ transmissions) :
    getVal (final_input r Y) "Brand_BMW" = 1 ∧
    (∀ b ∈ brands, b ≠ "BMW" → getVal (final_input r Y) ("Brand_" ++ b) = 0) ∧
    (∀ b ∈ brands, b ≠ "BMW" → ∀ m ∈ models_dict b,
      ("Model_" ++ m) ∈ expected_cols ∧ getVal (final_input r Y) ("Model_" ++ m) = 0) := by
  have hoh : oneHotCols r = ["Brand_" ++ "BMW", "Model_" ++ r.model,
      "Fuel_Type_" ++ r.fuelType, "Transmission_" ++ r.transmission,
      "Brand_Model_" ++ brand_model "BMW" r.model] := by
    rw [oneHotCols, hb]
  refine ⟨?_, ?_, ?_⟩
  · rw [getVal_of_not_num r Y _ ((mem_expected_iff _).mpr (by decide)) (by decide), hoh,
      if_pos (List.mem_cons.mpr (Or.inl (by decide)))]
  · intro b hb' hne
    rw [getVal_of_not_num r Y _ ((mem_expected_iff _).mpr (mem_raw_brand b hb'))
        (brandcol_not_num b hb'), hoh,
      if_neg (onehot_disjoint_bmw r.model hm r.fuelType hf r.transmission ht b hb' hne).1]
  · intro b hb' hne m hm'
    refine ⟨(mem_expected_iff _).mpr (mem_raw_model b hb' m hm'), ?_⟩
    rw [getVal_of_not_num r Y _ ((mem_expected_iff _).mpr (mem_raw_model b hb' m hm'))
        (modelcol_not_num b hb' m hm'), hoh,
      if_neg ((onehot_disjoint_bmw r.model hm r.fuelType hf r.transmission ht b hb' hne).2
        m hm')]

/-- Witness for C5 at a concrete BMW X5 record. -/
theorem C5_witness :
    bmwRecord.brand = "BMW" ∧ bmwRecord.model ∈ models_dict "BMW" ∧
    bmwRecord.fuelType ∈ fuel_types ∧ bmwRecord.transmission ∈ transmissions ∧
    getVal (final_input bmwRecord 2024) "Brand_BMW" = 1 := by
  have h := C5_bmw_alignment bmwRecord 2024 rfl (by decide) (by decide) (by decide)
  exact ⟨rfl, by decide, by decide, by decide, h.1⟩

/-- C6 (amended): referential integrity as the code actually enforces it.
The model widget only offers `models_dict[brand]`, so whatever model is
requested or held in session state, the selected model is always a member
of the chosen brand's model list — a record with Model outside
ModelsByBrand[Brand] can never be constructed and never reaches feature
encoding. (No InvalidInputError is raised; the invalid pairing is
unrepresentable instead — see the counterexample.) -/
theorem C6_referential_integrity (brand requested : String) (hb : brand ∈ brands) :
    selectbox (models_dict brand) requested ∈ models_dict brand := by
  by_cases h : requested ∈ models_dict brand
  · rw [selectbox, if_pos h]; exact h
  · rw [selectbox, if_neg h]
    fin_cases hb <;> decide

/-- Counterexample to C6 as literally stated: requesting the invalid
Brand/Model pair (BMW, Camry) does not fail — the construction is total
and simply returns BMW's first model, so no InvalidInputError exists on
this path. -/
theorem C6_counterexample :
    "Camry" ∉ models_dict "BMW" ∧
    selectbox (models_dict "BMW") "Camry" = "3 Series" := by decide

/-- Witness for C6 at a valid concrete selection. -/
theorem C6_witness :
    "BMW" ∈ brands ∧ selectbox (models_dict "BMW") "X5" ∈ models_dict "BMW" :=
  ⟨by decide, C6_referential_integrity "BMW" "X5" (by decide)⟩

/-- C7 (amended): input domain bounds as the widgets actually enforce
them. Every accepted engine size lies in [1.0, 5.0] (the slider's values,
1.0 to 5.0 in steps of 0.1, are all accepted), and an integer mileage is
accepted exactly when it lies in [0, 300000]. (The claim's bounds
[1.0, 6.0] and [0, 500000] do not match the widgets — see the
counterexample.) -/
theorem C7_input_bounds :
    (∀ x : Rat, engine_size_accepted x = true → 1 ≤ x ∧ x ≤ 5) ∧
    (∀ k : Nat, k ≤ 40 → engine_size_accepted (1 + (k : Rat) / 10) = true) ∧
    (∀ n : Int, mileage_accepted n = true ↔ 0 ≤ n ∧ n ≤ 300000) := by
  refine ⟨?_, ?_, ?_⟩
  · intro x hx
    rw [engine_size_accepted, Bool.and_eq_true, Bool.and_eq_true] at hx
    exact ⟨of_decide_eq_true hx.1.1, of_decide_eq_true hx.1.2⟩
  · intro k hk
    have h1 : (1 : Rat) ≤ 1 + (k : Rat) / 10 := by
      have h0 : (0 : Rat) ≤ (k : Rat) / 10 := by positivity
      linarith
    have h2 : 1 + (k : Rat) / 10 ≤ 5 := by
      have hk' : (k : Rat) ≤ 40 := by exact_mod_cast hk
      linarith
    have h3 : ((1 + (k : Rat) / 10) * 10).den = 1 := by
      have he : (1 + (k : Rat) / 10) * 10 = ((10 + k : Nat) : Rat) := by push_cast; ring
      rw [he, Rat.den_natCast]
    simp only [engine_size_accepted, Bool.and_eq_true, decide_eq_true_eq, beq_iff_eq]
    exact ⟨⟨h1, h2⟩, h3⟩
  · intro n
    simp only [mileage_accepted, Bool.and_eq_true, decide_eq_true_eq]

/-- Counterexample to C7 as literally stated: the engine size 5.5 and the
mileage 400000 lie inside the claim's bounds [1.0, 6.0] and [0, 500000]
but are rejected by the source's widgets (slider max 5.0, number input max
300000). -/
theorem C7_counterexample :
    engine_size_accepted (11 / 2) = false ∧
    (1 ≤ (11 / 2 : Rat) ∧ (11 / 2 : Rat) ≤ 6) ∧
    mileage_accepted 400000 = false ∧
    ((0 : Int) ≤ 400000 ∧ (400000 : Int) ≤ 500000) := by
  refine ⟨?_, ⟨by norm_num, by norm_num⟩, by decide, by decide⟩
  rw [engine_size_accepted, decide_eq_false (by norm_num : ¬((11 / 2 : Rat) ≤ 5))]
  simp

/-- Witness for C7 at concrete accepted values. -/
theorem C7_witness :
    engine_size_accepted 2 = true ∧ (1 ≤ (2 : Rat) ∧ (2 : Rat) ≤ 5) ∧
    (10 : Nat) ≤ 40 ∧ engine_size_accepted (1 + ((10 : Nat) : Rat) / 10) = true ∧
    (mileage_accepted 50000 = true ↔ (0 : Int) ≤ 50000 ∧ (50000 : Int) ≤ 300000) :=
  ⟨by simp only [engine_size_accepted, Bool.and_eq_true, decide_eq_true_eq, beq_iff_eq]
      norm_num,
   C7_input_bounds.1 2 (by
      simp only [engine_size_accepted, Bool.and_eq_true, decide_eq_true_eq, beq_iff_eq]
      norm_num),
   by decide,
   C7_input_bounds.2.1 10 (by decide),
   C7_input_bounds.2.2 50000⟩

/-- C8: canonical column order. `expected_cols` is sorted (lexicographic
string order) and the aligned vector's key list equals it for every record
and every current year, hence identically across all invocations. -/
theorem C8_canonical_order :
    List.Sorted (· ≤ ·) expected_cols ∧
    ∀ (r : VehicleRecord) (Y : Int), (final_input r Y).map Prod.fst = expected_cols :=
  ⟨sorted_expected, keys_final_input⟩

/-- C9: fixed schema size without duplicates. The vocabularies have 10
brands, 3 models per brand, 4 fuel types, 3 transmissions and 7 numeric
features; the raw expected column list is duplicate-free, the dedup/sort
leaves exactly 84 columns, and every aligned vector has exactly 84
entries. -/
theorem C9_schema_size :
    brands.length = 10 ∧ (∀ b ∈ brands, (models_dict b).length = 3) ∧
    fuel_types.length = 4 ∧ transmissions.length = 3 ∧
    numerical_features.length = 7 ∧
    expected_cols_raw.Nodup ∧ expected_cols.length = 84 ∧
    ∀ (r : VehicleRecord) (Y : Int), (final_input r Y).length = 84 := by
  refine ⟨rfl, by decide, rfl, rfl, rfl, nodup_raw, length_expected, fun r Y => ?_⟩
  have h := congrArg List.length (keys_final_input r Y)
  rwa [List.length_map, length_expected] at h

/-- C10: one-hot exactness. For every record with all categorical values
in the vocabulary, the five indicator columns of the record's own values
are pairwise distinct, all present in the schema with value 1, and every
other indicator column of the schema has value 0 — so exactly five
indicator columns equal 1, one per categorical field. -/
theorem C10_one_hot_exactness (r : VehicleRecord) (Y : Int)
    (hb : r.brand ∈ brands) (hm : r.model ∈ models_dict r.brand)
    (hf : r.fuelType ∈ fuel_types) (ht : r.transmission ∈ transmissions) :
    (oneHotCols r).Nodup ∧ (oneHotCols r).length = 5 ∧
    (∀ c ∈ oneHotCols r, c ∈ expected_cols ∧ getVal (final_input r Y) c = 1) ∧
    (∀ c ∈ expected_cols, c ∉ numerical_features → c ∉ oneHotCols r →
      getVal (final_input r Y) c = 0) := by
  refine ⟨?_, rfl, ?_, fun c hc hn ho => by rw [getVal_of_not_num r Y c hc hn, if_neg ho]⟩
  · have h := onehot_nodup_vocab r.brand hb r.model hm r.fuelType hf r.transmission ht
    simpa [oneHotCols] using h
  · intro c hc
    have hc' := hc
    simp only [oneHotCols, List.mem_cons, List.not_mem_nil, or_false] at hc'
    have hce : c ∈ expected_cols := by
      rw [mem_expected_iff]
      rcases hc' with rfl | rfl | rfl | rfl | rfl
      · exact mem_raw_brand _ hb
      · exact mem_raw_model _ hb _ hm
      · exact mem_raw_fuel _ hf
      · exact mem_raw_trans _ ht
      · exact mem_raw_bm _ hb _ hm
    have hnn : c ∉ numerical_features := by
      rcases hc' with rfl | rfl | rfl | rfl | rfl
      · exact brandcol_not_num _ hb
      · exact modelcol_not_num _ hb _ hm
      · exact fuelcol_not_num _ hf
      · exact transcol_not_num _ ht
      · exact bmcol_not_num _ hb _ hm
    exact ⟨hce, by rw [getVal_of_not_num r Y c hce hnn, if_pos hc]⟩

/-- Witness for C10 at the concrete Toyota Camry record. -/
theorem C10_witness :
    toyotaRecord.brand ∈ brands ∧
    toyotaRecord.model ∈ models_dict toyotaRecord.brand ∧
    toyotaRecord.fuelType ∈ fuel_types ∧
    toyotaRecord.transmission ∈ transmissions ∧
    (oneHotCols toyotaRecord).Nodup ∧ (oneHotCols toyotaRecord).length = 5 := by
  have h := C10_one_hot_exactness toyotaRecord 2024 (by decide) (by decide)
    (by decide) (by decide)
  exact ⟨by decide, by decide, by decide, by decide, h.1, h.2.1⟩

end CarPrice
